import Mathlib

/-!
Shallow embedding of the supabaseJS image-lifecycle gateway (src/server.js).

The five route handlers of `server.js` are modelled as pure Lean functions.
External collaborators (the Supabase database, the object store, the local
filesystem) appear as explicit state values and as error oracles: each
backend call that can fail takes its potential failure as an input
(`Option String`, `none` meaning the call succeeded), so a theorem can
quantify over all backend behaviours.

JavaScript value semantics that the handlers rely on are modelled
explicitly: truthiness (`latitude ? … : null`, `analysis || null`,
`!user_id`), `parseFloat`, and the fact that both `res.json` and the
Supabase client serialize payloads with `JSON.stringify`, which maps `NaN`
to `null`.
-/

namespace SupabaseJS

/-- JavaScript values that flow through the gateway's records and
responses: `null`, `NaN`, finite numbers (modelled as rationals, since the
handlers do no arithmetic on them), and strings. -/
inductive JsVal where
  | null
  | nan
  | num (q : ℚ)
  | str (s : String)
  deriving DecidableEq, Repr

/-- JavaScript truthiness on the values above: `null`, `NaN`, `0` and the
empty string are falsy. -/
def JsVal.truthy : JsVal → Bool
  | .null => false
  | .nan => false
  | .num q => if q = 0 then false else true
  | .str s => !s.isEmpty

/-- Truthiness of an optional body/record string field: an absent field is
`undefined` (falsy), an empty string is falsy, any other string is truthy. -/
def optTruthy : Option String → Bool
  | none => false
  | some s => !s.isEmpty

/-- `JSON.stringify` (used by `res.json` and by the Supabase client when
sending an insert payload) serializes `NaN` as `null`; every other value is
kept. -/
def jsonNorm : JsVal → JsVal
  | .nan => .null
  | v => v

/-- Longest leading run of decimal digits of a character list, together
with the rest of the list. -/
def takeDigits : List Char → List Char × List Char
  | [] => ([], [])
  | c :: cs =>
    if c.isDigit then
      let p := takeDigits cs
      (c :: p.1, p.2)
    else ([], c :: cs)

/-- Numeric value of a digit string (most significant first). -/
def digitsToNat (ds : List Char) : ℕ :=
  ds.foldl (fun a c => 10 * a + (c.toNat - 48)) 0

/-- Optional exponent part `e`/`E` with optional sign; returns the signed
exponent, or `0` when the remaining characters do not form an exponent
(JavaScript `parseFloat` ignores trailing garbage). -/
def parseExpPart (cs : List Char) : ℤ :=
  match cs with
  | c :: r =>
    if c = 'e' ∨ c = 'E' then
      let sp : ℤ × List Char :=
        match r with
        | '-' :: r2 => (-1, r2)
        | '+' :: r2 => (1, r2)
        | r2 => (1, r2)
      let dp := takeDigits sp.2
      if dp.1.isEmpty then 0 else sp.1 * (digitsToNat dp.1 : ℤ)
    else 0
  | [] => 0

/-- Model of the JavaScript builtin `parseFloat`, restricted to decimal
notation (optional leading whitespace, optional sign, digits with optional
fraction, optional exponent, trailing garbage ignored). `none` stands for
the result `NaN`: no digit could be read. -/
def parseFloatJS (s : String) : Option ℚ :=
  let cs0 := s.toList.dropWhile (fun c => c = ' ' ∨ c = '\t' ∨ c = '\n' ∨ c = '\r')
  let sp : ℚ × List Char :=
    match cs0 with
    | '-' :: r => (-1, r)
    | '+' :: r => (1, r)
    | r => (1, r)
  let ip := takeDigits sp.2
  let fp : List Char × List Char :=
    match ip.2 with
    | '.' :: r => takeDigits r
    | r => ([], r)
  if ip.1.isEmpty ∧ fp.1.isEmpty then none
  else
    let mantissa : ℚ :=
      (digitsToNat ip.1 : ℚ) + (digitsToNat fp.1 : ℚ) / (10 : ℚ) ^ fp.1.length
    some (sp.1 * mantissa * (10 : ℚ) ^ parseExpPart fp.2)

/-- The JavaScript value `latitude ? parseFloat(latitude) : null` computes
(before any JSON serialization): `null` for an absent or empty field,
otherwise the `parseFloat` result, which is `NaN` for an unparseable
string. -/
def coordVal (sv : Option String) : JsVal :=
  match sv with
  | none => .null
  | some s =>
    if s.isEmpty then .null
    else
      match parseFloatJS s with
      | some q => .num q
      | none => .nan

/-- The JavaScript value `analysis || null`: the string when truthy,
otherwise `null`. -/
def analysisVal (sv : Option String) : JsVal :=
  match sv with
  | none => .null
  | some s => if s.isEmpty then .null else .str s

/-- Model of the JavaScript builtin `String.prototype.startsWith` used by
the handlers as `url.startsWith('http')`: a character-level prefix test. -/
def strStartsWith (s p : String) : Bool :=
  p.data.isPrefixOf s.data

/-- JavaScript `s || d` on an optional string: the string when truthy
(present and non-empty), otherwise the default. -/
def orDefault (sv : Option String) (d : String) : String :=
  match sv with
  | none => d
  | some s => if s.isEmpty then d else s

/-! ## Object store and database model -/

/-- The parameters of a `supabase.storage.from(bucket).upload(...)` call,
as built by the handlers. -/
structure StorageCall where
  bucket : String
  key : String
  upsert : Bool
  cacheControl : String
  contentType : String
  deriving DecidableEq, Repr

/-- Contents of one storage bucket: an association list from object key to
an abstract content tag (the uploaded bytes). -/
abbrev Bucket := List (String × ℕ)

/-- The object stored under a key, if any. -/
def bucketGet (b : Bucket) (k : String) : Option ℕ :=
  (b.find? (fun p => p.1 == k)).map (fun p => p.2)

/-- Supabase storage `upload`: with `upsert: true` the object replaces any
existing object under the key; with `upsert: false` an existing key makes
the call fail (`Duplicate`), otherwise the object is stored. -/
def storageUpload (b : Bucket) (c : StorageCall) (content : ℕ) : Except String Bucket :=
  if c.upsert then
    .ok ((c.key, content) :: b.filter (fun p => p.1 != c.key))
  else if (bucketGet b c.key).isSome then
    .error "Duplicate"
  else
    .ok ((c.key, content) :: b)

/-- Supabase storage `getPublicUrl`: deterministic string construction from
the project base URL, the bucket and the key; it never fails. -/
def publicUrl (baseUrl bucket key : String) : String :=
  baseUrl ++ "/storage/v1/object/public/" ++ bucket ++ "/" ++ key

/-- A row of the `images` table as the handlers see it. The
latitude/longitude/analysis columns hold the JSON-serialized values the
gateway inserted (so never `NaN`). -/
structure ImageRecord where
  id : ℕ
  user_id : String
  url : String
  latitude : JsVal
  longitude : JsVal
  analysis : JsVal
  created_at : String
  deriving DecidableEq, Repr

/-- A row of the `users` table: the external auth identifier used as
lookup key, the nullable text column `profile_image_url`, and the creation
timestamp. -/
structure UserRecord where
  firebase_id : String
  profile_image_url : Option String
  created_at : String
  deriving DecidableEq, Repr

/-- The store-assigned id of a freshly inserted `images` row: distinct
from every existing id. -/
def freshId (db : List ImageRecord) : ℕ :=
  (db.map (fun r => r.id)).foldr max 0 + 1

/-- Row of the `images` table with the given id, if any. -/
def findImage (db : List ImageRecord) (i : ℕ) : Option ImageRecord :=
  db.find? (fun r => r.id == i)

/-! ## GET /images -/

/-- The shape of one element of the GET /images response. -/
structure ImageView where
  id : ℕ
  url : String
  user_id : String
  created_at : String
  latitude : JsVal
  longitude : JsVal
  analysis : JsVal
  deriving DecidableEq, Repr

/-- The `x || null` defaulting applied to latitude, longitude and analysis
in every branch of the GET /images map. -/
def orNull (v : JsVal) : JsVal :=
  if v.truthy then v else .null

/-- URL resolution for one image record, from the GET /images handler:
a reference starting with `http` is returned unchanged; otherwise a signed
URL with 3600-second validity is requested (`signed` is the store's
response: `none` models `createSignedUrl` returning an error); on error
the handler falls back to `getPublicUrl` on the `imagens` bucket, which
always produces a URL. -/
def resolveUrl (signed : String → ℕ → Option String) (baseUrl : String) (u : String) : String :=
  if strStartsWith u "http" then u
  else
    match signed u 3600 with
    | some su => su
    | none => publicUrl baseUrl "imagens" u

/-- The response object GET /images builds for one record: resolved URL
plus the record fields with `|| null` defaulting. -/
def imageView (signed : String → ℕ → Option String) (baseUrl : String)
    (img : ImageRecord) : ImageView :=
  { id := img.id
    url := resolveUrl signed baseUrl img.url
    user_id := img.user_id
    created_at := img.created_at
    latitude := orNull img.latitude
    longitude := orNull img.longitude
    analysis := orNull img.analysis }

/-- GET /images response: the mapped list on success, or the 500 body
`Erro ao buscar imagens` with details when the initial select failed. -/
inductive ImagesResp where
  | ok (views : List ImageView)
  | serverErr (msg details : String)
  deriving DecidableEq, Repr

/-- The GET /images handler. `fetch` is the result of the initial
`from('images').select('*')` call (`error` aborts the whole request). -/
def imagesHandler (signed : String → ℕ → Option String) (baseUrl : String)
    (fetch : Except String (List ImageRecord)) : ImagesResp :=
  match fetch with
  | .error e => .serverErr "Erro ao buscar imagens" e
  | .ok imgs => .ok (imgs.map (imageView signed baseUrl))

/-! ## POST /upload -/

/-- The transient file multer materializes for a request: local path,
original client filename (absent when the client sent none), MIME type. -/
structure UploadedFile where
  path : String
  originalname : Option String
  mimetype : String
  deriving DecidableEq, Repr

/-- A POST /upload request: optional file part and the body fields. -/
structure UploadReq where
  file : Option UploadedFile
  user_id : Option String
  latitude : Option String
  longitude : Option String
  analysis : Option String
  deriving DecidableEq, Repr

/-- Environment of one POST /upload request: clock values, project base
URL, current table and bucket state, the bytes of the transient file, and
failure oracles for the two backend calls that can fail for external
reasons. -/
structure UploadEnv where
  now : ℕ
  nowIso : String
  baseUrl : String
  imagesDb : List ImageRecord
  imagesBucket : Bucket
  fileContent : ℕ
  uploadFail : Option String
  insertFail : Option String
  deriving DecidableEq, Repr

/-- POST /upload response bodies. -/
inductive UploadResp where
  | badRequest (msg : String)
  | serverErr (msg details : String)
  | ok (imageId : ℕ) (imageUrl : String) (latitude longitude analysis : JsVal)
  deriving DecidableEq, Repr

/-- Observable outcome of one POST /upload request: the response, whether
`fs.unlinkSync(req.file.path)` ran on the transient file, the states
afterwards, and the storage upload call made (if any). -/
structure UploadOutcome where
  resp : UploadResp
  tmpDeleted : Bool
  db : List ImageRecord
  bucket : Bucket
  call : Option StorageCall
  deriving DecidableEq, Repr

/-- The POST /upload handler. The inserted latitude/longitude are the
values `latitude ? parseFloat(latitude) : null` after JSON serialization
(`jsonNorm`), since both the insert payload and the response body go
through `JSON.stringify`. The temp file is unlinked on the success path
and in the catch block, but not on the 400 early returns. -/
def uploadHandler (env : UploadEnv) (req : UploadReq) : UploadOutcome :=
  match req.file with
  | none =>
    { resp := .badRequest "Nenhuma imagem enviada", tmpDeleted := false
      db := env.imagesDb, bucket := env.imagesBucket, call := none }
  | some f =>
    if !optTruthy req.user_id then
      { resp := .badRequest "user_id é obrigatório", tmpDeleted := false
        db := env.imagesDb, bucket := env.imagesBucket, call := none }
    else
      let fileName := toString env.now ++ "_" ++ orDefault f.originalname "image.jpg"
      let filePath := "images/" ++ fileName
      let call : StorageCall :=
        { bucket := "imagens", key := filePath, upsert := false
          cacheControl := "3600", contentType := f.mimetype }
      match env.uploadFail with
      | some e =>
        { resp := .serverErr "Erro ao fazer upload da imagem" e, tmpDeleted := true
          db := env.imagesDb, bucket := env.imagesBucket, call := some call }
      | none =>
        match storageUpload env.imagesBucket call env.fileContent with
        | .error e =>
          { resp := .serverErr "Erro ao fazer upload da imagem" e, tmpDeleted := true
            db := env.imagesDb, bucket := env.imagesBucket, call := some call }
        | .ok b2 =>
          let pubUrl := publicUrl env.baseUrl "imagens" filePath
          match env.insertFail with
          | some e =>
            { resp := .serverErr "Erro ao fazer upload da imagem" e, tmpDeleted := true
              db := env.imagesDb, bucket := b2, call := some call }
          | none =>
            let newRec : ImageRecord :=
              { id := freshId env.imagesDb
                user_id := req.user_id.getD ""
                url := filePath
                latitude := jsonNorm (coordVal req.latitude)
                longitude := jsonNorm (coordVal req.longitude)
                analysis := analysisVal req.analysis
                created_at := env.nowIso }
            { resp := .ok newRec.id pubUrl newRec.latitude newRec.longitude newRec.analysis
              tmpDeleted := true
              db := newRec :: env.imagesDb, bucket := b2, call := some call }

/-! ## DELETE /images/:id -/

/-- Environment of one DELETE /images/:id request: the outcome of the
initial `.select('url').eq('id', id).single()` as the pair (error, data)
the client returns, and the failure oracles of the three deletion calls.
On a backend failure `.single()` reports the error with no data; on a
missing row it reports the `PGRST116` error, also with no data — the
handler inspects only `fetchError || !image`, so the two are modelled by
the same shape. -/
structure DeleteEnv where
  fetchErr : Option String
  fetchData : Option ImageRecord
  storageRemoveErr : Option String
  dbDeleteErr : Option String
  metaDeleteErr : Option String
  deriving DecidableEq, Repr

/-- DELETE /images/:id response bodies. -/
inductive DeleteResp where
  | notFound
  | ok
  | serverErr (msg details : String)
  deriving DecidableEq, Repr

/-- Outcome of one DELETE /images/:id request: response plus the console
log entries written for the two swallowed errors. -/
structure DeleteOutcome where
  resp : DeleteResp
  log : List String
  deriving DecidableEq, Repr

/-- The DELETE /images/:id handler: 404 when `fetchError || !image`;
storage removal errors are logged only; a primary `images` row deletion
error throws to the catch (500 with details); a metadata row deletion
error is logged only; otherwise 200 `success: true`. -/
def deleteHandler (env : DeleteEnv) : DeleteOutcome :=
  if env.fetchErr.isSome || env.fetchData.isNone then
    { resp := .notFound, log := [] }
  else
    let log1 : List String :=
      match env.storageRemoveErr with
      | some e => ["Erro ao deletar do storage: " ++ e]
      | none => []
    match env.dbDeleteErr with
    | some e => { resp := .serverErr "Erro ao excluir imagem" e, log := log1 }
    | none =>
      let log2 : List String :=
        match env.metaDeleteErr with
        | some e => log1 ++ ["Erro ao deletar metadata: " ++ e]
        | none => log1
      { resp := .ok, log := log2 }

/-! ## POST /upload-profile -/

/-- Number of `users` rows carrying a given external identifier. -/
def countFid (users : List UserRecord) (v : String) : ℕ :=
  (users.filter (fun r => r.firebase_id == v)).length

/-- The `users` table after
`update(profile_image_url).eq('firebase_id', u)`: every row with that
identifier gets the new reference, other rows are untouched. -/
def updateUsers (users : List UserRecord) (u url : String) : List UserRecord :=
  users.map (fun r =>
    if r.firebase_id == u then { r with profile_image_url := some url } else r)

/-- Environment of one POST /upload-profile request. `findFail` is a
lookup failure other than `PGRST116` (which the handler rethrows);
`writeFail` is a failure of the update/insert that follows. -/
structure ProfileEnv where
  baseUrl : String
  nowIso : String
  users : List UserRecord
  profilesBucket : Bucket
  fileContent : ℕ
  uploadFail : Option String
  findFail : Option String
  writeFail : Option String
  deriving DecidableEq, Repr

/-- POST /upload-profile response bodies. -/
inductive ProfileUploadResp where
  | badRequest (msg : String)
  | serverErr (msg details : String)
  | ok (profileImageUrl : String)
  deriving DecidableEq, Repr

/-- Observable outcome of one POST /upload-profile request. -/
structure ProfileUploadOutcome where
  resp : ProfileUploadResp
  tmpDeleted : Bool
  users : List UserRecord
  bucket : Bucket
  call : Option StorageCall
  deriving DecidableEq, Repr

/-- The POST /upload-profile handler: deterministic key
`profile_{user_id}.jpg`, upload with `upsert: true` into `profiles`,
public URL, then lookup by `firebase_id` (modelled on the table state;
faithful to `.single()` when at most one row matches) with update-if-found
and insert-if-not-found. The temp file is unlinked on the success path and
in the catch block, but not on the 400 early returns. -/
def uploadProfileHandler (env : ProfileEnv) (file : Option UploadedFile)
    (user_id : Option String) : ProfileUploadOutcome :=
  match file with
  | none =>
    { resp := .badRequest "Nenhuma imagem enviada", tmpDeleted := false
      users := env.users, bucket := env.profilesBucket, call := none }
  | some f =>
    if !optTruthy user_id then
      { resp := .badRequest "user_id é obrigatório", tmpDeleted := false
        users := env.users, bucket := env.profilesBucket, call := none }
    else
      let uid := user_id.getD ""
      let filePath := "profile_" ++ uid ++ ".jpg"
      let call : StorageCall :=
        { bucket := "profiles", key := filePath, upsert := true
          cacheControl := "3600", contentType := f.mimetype }
      match env.uploadFail with
      | some e =>
        { resp := .serverErr "Erro ao fazer upload da imagem de perfil" e
          tmpDeleted := true, users := env.users, bucket := env.profilesBucket
          call := some call }
      | none =>
        match storageUpload env.profilesBucket call env.fileContent with
        | .error e =>
          { resp := .serverErr "Erro ao fazer upload da imagem de perfil" e
            tmpDeleted := true, users := env.users, bucket := env.profilesBucket
            call := some call }
        | .ok b2 =>
          let url := publicUrl env.baseUrl "profiles" filePath
          match env.findFail with
          | some e =>
            { resp := .serverErr "Erro ao fazer upload da imagem de perfil" e
              tmpDeleted := true, users := env.users, bucket := b2, call := some call }
          | none =>
            match env.users.find? (fun r => r.firebase_id == uid) with
            | some _ =>
              match env.writeFail with
              | some e =>
                { resp := .serverErr "Erro ao fazer upload da imagem de perfil" e
                  tmpDeleted := true, users := env.users, bucket := b2
                  call := some call }
              | none =>
                { resp := .ok url, tmpDeleted := true
                  users := updateUsers env.users uid url, bucket := b2
                  call := some call }
            | none =>
              match env.writeFail with
              | some e =>
                { resp := .serverErr "Erro ao fazer upload da imagem de perfil" e
                  tmpDeleted := true, users := env.users, bucket := b2
                  call := some call }
              | none =>
                { resp := .ok url, tmpDeleted := true
                  users := env.users ++ [{ firebase_id := uid
                                           profile_image_url := some url
                                           created_at := env.nowIso }]
                  bucket := b2, call := some call }

/-! ## GET /profile-image/:user_id -/

/-- Result of `.select(...).eq('firebase_id', uid).single()`: a row, the
`PGRST116` not-found error, or another backend error. -/
inductive SingleRes (α : Type) where
  | ok (a : α)
  | notFoundErr
  | otherErr (msg : String)
  deriving DecidableEq, Repr

/-- `.single()` lookup against a healthy `users` table state (faithful
when at most one row matches the identifier). -/
def lookupUser (users : List UserRecord) (uid : String) : SingleRes UserRecord :=
  match users.find? (fun r => r.firebase_id == uid) with
  | some r => .ok r
  | none => .notFoundErr

/-- GET /profile-image/:user_id responses: an error status with message
(404 bodies), a 500 with details, or the 200 body. -/
inductive ProfileGetResp where
  | err (status : ℕ) (msg : String)
  | errDetails (status : ℕ) (msg details : String)
  | ok (profileImageUrl : String)
  deriving DecidableEq, Repr

/-- The GET /profile-image/:user_id handler: `PGRST116` gives 404
`Usuário não encontrado`; other lookup errors give 500; a falsy
`profile_image_url` gives 404 `Imagem de perfil não encontrada`; a
reference starting with `http` is returned as-is; anything else is
resolved via `getPublicUrl` on the `profiles` bucket. -/
def getProfileHandler (baseUrl : String) (res : SingleRes UserRecord) : ProfileGetResp :=
  match res with
  | .notFoundErr => .err 404 "Usuário não encontrado"
  | .otherErr e => .errDetails 500 "Erro ao buscar imagem de perfil" e
  | .ok user =>
    if !optTruthy user.profile_image_url then
      .err 404 "Imagem de perfil não encontrada"
    else
      let s := user.profile_image_url.getD ""
      if strStartsWith s "http" then .ok s
      else .ok (publicUrl baseUrl "profiles" s)

/-! ## Claim C1: transient-file cleanup -/

/-- C1 counterexample: a POST /upload request that carries a file but no
`user_id` exits through the 400 validation rejection with the transient
file still on disk (`tmpDeleted = false`), and POST /upload-profile
behaves the same way — so cleanup does not happen on every exit path. -/
theorem upload_400_keeps_tmp_file :
    (uploadHandler
      { now := 0, nowIso := "2025-01-01T00:00:00.000Z"
        baseUrl := "https://proj.supabase.co", imagesDb := [], imagesBucket := []
        fileContent := 0, uploadFail := none, insertFail := none }
      { file := some { path := "uploads/abc123", originalname := some "photo.jpg"
                       mimetype := "image/jpeg" }
        user_id := none, latitude := none, longitude := none, analysis := none }).resp
      = .badRequest "user_id é obrigatório" ∧
    (uploadHandler
      { now := 0, nowIso := "2025-01-01T00:00:00.000Z"
        baseUrl := "https://proj.supabase.co", imagesDb := [], imagesBucket := []
        fileContent := 0, uploadFail := none, insertFail := none }
      { file := some { path := "uploads/abc123", originalname := some "photo.jpg"
                       mimetype := "image/jpeg" }
        user_id := none, latitude := none, longitude := none, analysis := none }).tmpDeleted
      = false ∧
    (uploadProfileHandler
      { baseUrl := "https://proj.supabase.co", nowIso := "2025-01-01T00:00:00.000Z"
        users := [], profilesBucket := [], fileContent := 0
        uploadFail := none, findFail := none, writeFail := none }
      (some { path := "uploads/def456", originalname := none, mimetype := "image/jpeg" })
      none).resp = .badRequest "user_id é obrigatório" ∧
    (uploadProfileHandler
      { baseUrl := "https://proj.supabase.co", nowIso := "2025-01-01T00:00:00.000Z"
        users := [], profilesBucket := [], fileContent := 0
        uploadFail := none, findFail := none, writeFail := none }
      (some { path := "uploads/def456", originalname := none, mimetype := "image/jpeg" })
      none).tmpDeleted = false := by
  refine ⟨rfl, rfl, rfl, rfl⟩

/-- C1 (amended): for a request carrying a file, both file-accepting
handlers delete the transient file on the success path and on every
backend-error (500) path, but the 400 rejection for a missing `user_id`
returns with the file still in place. -/
theorem tmp_file_cleanup (env : UploadEnv) (penv : ProfileEnv) (req : UploadReq)
    (f g : UploadedFile) (pu : Option String) (hf : req.file = some f) :
    (optTruthy req.user_id = true → (uploadHandler env req).tmpDeleted = true) ∧
    (optTruthy req.user_id = false →
      (uploadHandler env req).resp = .badRequest "user_id é obrigatório" ∧
      (uploadHandler env req).tmpDeleted = false) ∧
    (optTruthy pu = true → (uploadProfileHandler penv (some g) pu).tmpDeleted = true) ∧
    (optTruthy pu = false →
      (uploadProfileHandler penv (some g) pu).resp = .badRequest "user_id é obrigatório" ∧
      (uploadProfileHandler penv (some g) pu).tmpDeleted = false) := by
  refine ⟨fun h => ?_, fun h => ?_, fun h => ?_, fun h => ?_⟩
  · simp only [uploadHandler, hf, h]
    cases hu : env.uploadFail
    case' none =>
      cases hs : storageUpload env.imagesBucket _ env.fileContent
      case' ok => cases hi : env.insertFail
    all_goals simp
  · simp only [uploadHandler, hf, h]
    exact ⟨rfl, rfl⟩
  · simp only [uploadProfileHandler, h]
    cases hu : penv.uploadFail
    case' none =>
      cases hs : storageUpload penv.profilesBucket _ penv.fileContent
      case' ok =>
        cases hfind : penv.findFail
        case' none =>
          cases hl : penv.users.find? _ <;> cases hw : penv.writeFail
    all_goals simp
  · simp only [uploadProfileHandler, h]
    exact ⟨rfl, rfl⟩

/-- Witness for `tmp_file_cleanup` at concrete inputs: a truthy `user_id`
request has its transient file deleted, a falsy one on the profile route
does not. -/
theorem tmp_file_cleanup_witness :
    (uploadHandler
      { now := 11, nowIso := "2025-01-02T00:00:00.000Z"
        baseUrl := "https://proj.supabase.co", imagesDb := [], imagesBucket := []
        fileContent := 9, uploadFail := none, insertFail := none }
      { file := some { path := "uploads/w1", originalname := some "a.png"
                       mimetype := "image/png" }
        user_id := some "user-1", latitude := none, longitude := none
        analysis := none }).tmpDeleted = true ∧
    (uploadProfileHandler
      { baseUrl := "https://proj.supabase.co", nowIso := "2025-01-02T00:00:00.000Z"
        users := [], profilesBucket := [], fileContent := 9
        uploadFail := none, findFail := none, writeFail := none }
      (some { path := "uploads/w2", originalname := none, mimetype := "image/png" })
      (some "")).tmpDeleted = false := by
  constructor
  · exact (tmp_file_cleanup _
      { baseUrl := "https://proj.supabase.co", nowIso := "2025-01-02T00:00:00.000Z"
        users := [], profilesBucket := [], fileContent := 9
        uploadFail := none, findFail := none, writeFail := none } _
      { path := "uploads/w1", originalname := some "a.png", mimetype := "image/png" }
      { path := "uploads/w2", originalname := none, mimetype := "image/png" }
      (some "") rfl).1 rfl
  · exact ((tmp_file_cleanup
      { now := 11, nowIso := "2025-01-02T00:00:00.000Z"
        baseUrl := "https://proj.supabase.co", imagesDb := [], imagesBucket := []
        fileContent := 9, uploadFail := none, insertFail := none } _
      { file := some { path := "uploads/w1", originalname := some "a.png"
                       mimetype := "image/png" }
        user_id := some "user-1", latitude := none, longitude := none
        analysis := none }
      { path := "uploads/w1", originalname := some "a.png", mimetype := "image/png" }
      { path := "uploads/w2", originalname := none, mimetype := "image/png" }
      (some "") rfl).2.2.2 rfl).2

/-! ## Claim C2: upload round-trip of the record fields -/

/-- After JSON serialization, the coordinate value the handler inserts is
exactly the parsed float when `parseFloat` succeeds, and `null` otherwise
(absent, empty or unparseable input). -/
theorem jsonNorm_coordVal (sv : Option String) :
    jsonNorm (coordVal sv)
      = (match sv with
         | none => JsVal.null
         | some s =>
           match parseFloatJS s with
           | some q => JsVal.num q
           | none => JsVal.null) := by
  cases sv with
  | none => rfl
  | some s =>
    by_cases hs : s.isEmpty
    · have he : s = "" := (String.isEmpty_iff s).1 hs
      subst he
      rfl
    · simp only [coordVal, hs, Bool.false_eq_true, if_false]
      cases hp : parseFloatJS s <;> simp [jsonNorm]

/-- The inserted analysis value is the input string, or null. -/
theorem analysisVal_cases (sv : Option String) :
    analysisVal sv
        = (match sv with
           | none => JsVal.null
           | some s => JsVal.str s)
      ∨ analysisVal sv = JsVal.null := by
  cases sv with
  | none => exact .inr rfl
  | some s =>
    by_cases hs : s.isEmpty
    · exact .inr (by simp [analysisVal, hs])
    · exact .inl (by simp [analysisVal, hs])

/-- C2: a successful POST /upload inserts a record whose latitude and
longitude are the parsed floats of the body fields (null when absent or
unparseable) and whose analysis is the input string or null; the response
echoes exactly those record fields, and the returned `imageId` looks up
that record in the resulting table. -/
theorem upload_record_roundtrip (env : UploadEnv) (req : UploadReq) (f : UploadedFile)
    (hf : req.file = some f) (hu : optTruthy req.user_id = true)
    (hupl : env.uploadFail = none) (hins : env.insertFail = none)
    (hkey : bucketGet env.imagesBucket
      ("images/" ++ (toString env.now ++ "_" ++ orDefault f.originalname "image.jpg"))
        = none) :
    ∃ rec : ImageRecord,
      (uploadHandler env req).resp
        = .ok rec.id
            (publicUrl env.baseUrl "imagens"
              ("images/" ++ (toString env.now ++ "_" ++ orDefault f.originalname "image.jpg")))
            rec.latitude rec.longitude rec.analysis ∧
      findImage (uploadHandler env req).db rec.id = some rec ∧
      rec.latitude
        = (match req.latitude with
           | none => JsVal.null
           | some s =>
             match parseFloatJS s with
             | some q => JsVal.num q
             | none => JsVal.null) ∧
      rec.longitude
        = (match req.longitude with
           | none => JsVal.null
           | some s =>
             match parseFloatJS s with
             | some q => JsVal.num q
             | none => JsVal.null) ∧
      (rec.analysis
          = (match req.analysis with
             | none => JsVal.null
             | some s => JsVal.str s)
        ∨ rec.analysis = JsVal.null) := by
  have hsu : storageUpload env.imagesBucket
      { bucket := "imagens"
        key := "images/" ++ (toString env.now ++ "_" ++ orDefault f.originalname "image.jpg")
        upsert := false, cacheControl := "3600", contentType := f.mimetype }
      env.fileContent
      = .ok (("images/" ++ (toString env.now ++ "_" ++ orDefault f.originalname "image.jpg"),
              env.fileContent) :: env.imagesBucket) := by
    simp [storageUpload, hkey]
  refine ⟨{ id := freshId env.imagesDb
            user_id := req.user_id.getD ""
            url := "images/" ++ (toString env.now ++ "_" ++ orDefault f.originalname "image.jpg")
            latitude := jsonNorm (coordVal req.latitude)
            longitude := jsonNorm (coordVal req.longitude)
            analysis := analysisVal req.analysis
            created_at := env.nowIso }, ?_, ?_, ?_, ?_, ?_⟩
  · simp only [uploadHandler, hf, hu, hupl, hsu, hins]
    simp
  · simp only [uploadHandler, hf, hu, hupl, hsu, hins]
    simp [findImage]
  · exact jsonNorm_coordVal req.latitude
  · exact jsonNorm_coordVal req.longitude
  · exact analysisVal_cases req.analysis

/-- Witness for `upload_record_roundtrip`: a concrete upload with
latitude `12.5`, unparseable longitude `abc` and analysis `ok`. -/
theorem upload_record_roundtrip_witness :
    ∃ rec : ImageRecord,
      (uploadHandler
        { now := 42, nowIso := "2025-01-03T00:00:00.000Z"
          baseUrl := "https://proj.supabase.co", imagesDb := [], imagesBucket := []
          fileContent := 5, uploadFail := none, insertFail := none }
        { file := some { path := "uploads/w3", originalname := some "spot.jpg"
                         mimetype := "image/jpeg" }
          user_id := some "user-7", latitude := some "12.5", longitude := some "abc"
          analysis := some "ok" }).resp
        = .ok rec.id
            (publicUrl "https://proj.supabase.co" "imagens"
              ("images/" ++ (toString (42 : ℕ) ++ "_" ++ orDefault (some "spot.jpg") "image.jpg")))
            rec.latitude rec.longitude rec.analysis ∧
      findImage (uploadHandler
        { now := 42, nowIso := "2025-01-03T00:00:00.000Z"
          baseUrl := "https://proj.supabase.co", imagesDb := [], imagesBucket := []
          fileContent := 5, uploadFail := none, insertFail := none }
        { file := some { path := "uploads/w3", originalname := some "spot.jpg"
                         mimetype := "image/jpeg" }
          user_id := some "user-7", latitude := some "12.5", longitude := some "abc"
          analysis := some "ok" }).db rec.id = some rec ∧
      rec.latitude
        = (match (some "12.5" : Option String) with
           | none => JsVal.null
           | some s =>
             match parseFloatJS s with
             | some q => JsVal.num q
             | none => JsVal.null) ∧
      rec.longitude
        = (match (some "abc" : Option String) with
           | none => JsVal.null
           | some s =>
             match parseFloatJS s with
             | some q => JsVal.num q
             | none => JsVal.null) ∧
      (rec.analysis
          = (match (some "ok" : Option String) with
             | none => JsVal.null
             | some s => JsVal.str s)
        ∨ rec.analysis = JsVal.null) :=
  upload_record_roundtrip _ _
    { path := "uploads/w3", originalname := some "spot.jpg", mimetype := "image/jpeg" }
    rfl rfl rfl rfl rfl

/-! ## Claim C3: DELETE fetch error handling -/

/-- C3 counterexample: a backend failure of the initial record fetch (the
client reports an error and no row, here `connection reset`) is answered
with the 404 not-found body, not with the 500 server error the claim
requires for backend failures. -/
theorem delete_backend_fetch_error_is_404 :
    (deleteHandler
      { fetchErr := some "connection reset", fetchData := none
        storageRemoveErr := none, dbDeleteErr := none, metaDeleteErr := none }).resp
      = .notFound ∧
    (deleteHandler
      { fetchErr := some "connection reset", fetchData := none
        storageRemoveErr := none, dbDeleteErr := none, metaDeleteErr := none }).resp
      ≠ .serverErr "Erro ao excluir imagem" "connection reset" := by
  exact ⟨rfl, by decide⟩

/-- C3 (amended): DELETE /images/:id answers 404 whenever the initial
fetch reports an error or returns no row — a missing record and a backend
fetch failure are not distinguished, so backend fetch failures also yield
404 rather than 500. -/
theorem delete_fetch_failure_not_found (env : DeleteEnv)
    (h : env.fetchErr.isSome = true ∨ env.fetchData = none) :
    (deleteHandler env).resp = .notFound := by
  have hc : (env.fetchErr.isSome || env.fetchData.isNone) = true := by
    rcases h with h | h
    · simp [h]
    · simp [h]
  simp [deleteHandler, hc]

/-- Witness for `delete_fetch_failure_not_found` at a concrete
environment whose fetch failed. -/
theorem delete_fetch_failure_not_found_witness :
    (deleteHandler
      { fetchErr := some "timeout", fetchData := none
        storageRemoveErr := none, dbDeleteErr := none, metaDeleteErr := none }).resp
      = .notFound :=
  delete_fetch_failure_not_found _ (Or.inl rfl)

/-! ## Claim C5: best-effort sub-deletions in DELETE -/

/-- C5: once the record fetch has succeeded, the DELETE response is
determined solely by the primary `images` row deletion — a failure there
gives the 500 body with details, success gives the `success: true` body,
and failures of the storage-object deletion and of the secondary
`images_metadata` row deletion never change the response; both are only
written to the log. -/
theorem delete_besteffort_subdeletions (env : DeleteEnv) (img : ImageRecord)
    (he : env.fetchErr = none) (hd : env.fetchData = some img) :
    ((deleteHandler env).resp
      = match env.dbDeleteErr with
        | some e => .serverErr "Erro ao excluir imagem" e
        | none => .ok) ∧
    (∀ e, env.storageRemoveErr = some e →
      ("Erro ao deletar do storage: " ++ e) ∈ (deleteHandler env).log) ∧
    (∀ e, env.dbDeleteErr = none → env.metaDeleteErr = some e →
      ("Erro ao deletar metadata: " ++ e) ∈ (deleteHandler env).log) := by
  have hc : (env.fetchErr.isSome || env.fetchData.isNone) = false := by
    simp [he, hd]
  refine ⟨?_, ?_, ?_⟩
  · simp only [deleteHandler, hc, Bool.false_eq_true, if_false]
    cases hdb : env.dbDeleteErr <;> simp
  · intro e hse
    simp only [deleteHandler, hc, Bool.false_eq_true, if_false, hse]
    cases hdb : env.dbDeleteErr
    · cases hm : env.metaDeleteErr <;> simp
    · simp
  · intro e hdb hm
    simp only [deleteHandler, hc, Bool.false_eq_true, if_false, hdb, hm]
    cases hs : env.storageRemoveErr <;> simp

/-- Witness for `delete_besteffort_subdeletions`: both sub-deletions fail
while the primary deletion succeeds, and the request still answers with
the success body, logging both errors. -/
theorem delete_besteffort_subdeletions_witness :
    ((deleteHandler
      { fetchErr := none
        fetchData := some { id := 3, user_id := "u", url := "images/3_a.jpg"
                            latitude := .null, longitude := .null, analysis := .null
                            created_at := "2025-01-01T00:00:00.000Z" }
        storageRemoveErr := some "object missing", dbDeleteErr := none
        metaDeleteErr := some "row locked" }).resp
      = match (none : Option String) with
        | some e => DeleteResp.serverErr "Erro ao excluir imagem" e
        | none => DeleteResp.ok) ∧
    ("Erro ao deletar do storage: " ++ "object missing") ∈ (deleteHandler
      { fetchErr := none
        fetchData := some { id := 3, user_id := "u", url := "images/3_a.jpg"
                            latitude := .null, longitude := .null, analysis := .null
                            created_at := "2025-01-01T00:00:00.000Z" }
        storageRemoveErr := some "object missing", dbDeleteErr := none
        metaDeleteErr := some "row locked" }).log ∧
    ("Erro ao deletar metadata: " ++ "row locked") ∈ (deleteHandler
      { fetchErr := none
        fetchData := some { id := 3, user_id := "u", url := "images/3_a.jpg"
                            latitude := .null, longitude := .null, analysis := .null
                            created_at := "2025-01-01T00:00:00.000Z" }
        storageRemoveErr := some "object missing", dbDeleteErr := none
        metaDeleteErr := some "row locked" }).log := by
  obtain ⟨h1, h2, h3⟩ := delete_besteffort_subdeletions
    { fetchErr := none
      fetchData := some { id := 3, user_id := "u", url := "images/3_a.jpg"
                          latitude := .null, longitude := .null, analysis := .null
                          created_at := "2025-01-01T00:00:00.000Z" }
      storageRemoveErr := some "object missing", dbDeleteErr := none
      metaDeleteErr := some "row locked" }
    { id := 3, user_id := "u", url := "images/3_a.jpg"
      latitude := .null, longitude := .null, analysis := .null
      created_at := "2025-01-01T00:00:00.000Z" }
    rfl rfl
  exact ⟨h1, h2 _ rfl, h3 _ rfl rfl⟩

/-! ## Claim C4: GET /images URL resolution -/

/-- C4: with the initial select successful, GET /images returns the full
mapped list (no per-item abort is possible), and each record's URL is
resolved as: unchanged when the stored reference starts with `http`;
otherwise the signed URL requested with 3600-second (1 hour) validity when
the store produced one; otherwise the permanent public URL for the same
key. -/
theorem images_url_resolution (signed : String → ℕ → Option String) (baseUrl : String)
    (imgs : List ImageRecord) :
    imagesHandler signed baseUrl (.ok imgs) = .ok (imgs.map (imageView signed baseUrl)) ∧
    ∀ img ∈ imgs,
      (imageView signed baseUrl img).url
        = (if strStartsWith img.url "http" then img.url
           else
             match signed img.url 3600 with
             | some su => su
             | none => publicUrl baseUrl "imagens" img.url) := by
  refine ⟨rfl, fun img _ => ?_⟩
  simp only [imageView, resolveUrl]

/-- Witness for `images_url_resolution`: one bare-key record whose
signed-URL generation fails, resolved to the public URL, inside a
successfully returned list. -/
theorem images_url_resolution_witness :
    imagesHandler (fun _ _ => none) "https://proj.supabase.co"
      (.ok [{ id := 1, user_id := "u", url := "images/1_a.jpg"
              latitude := .null, longitude := .null, analysis := .null
              created_at := "2025-01-01T00:00:00.000Z" }])
      = .ok ([{ id := 1, user_id := "u", url := "images/1_a.jpg"
                latitude := .null, longitude := .null, analysis := .null
                created_at := "2025-01-01T00:00:00.000Z" }].map
          (imageView (fun _ _ => none) "https://proj.supabase.co")) ∧
    (imageView (fun _ _ => none) "https://proj.supabase.co"
      { id := 1, user_id := "u", url := "images/1_a.jpg"
        latitude := .null, longitude := .null, analysis := .null
        created_at := "2025-01-01T00:00:00.000Z" }).url
      = (if strStartsWith "images/1_a.jpg" "http" then "images/1_a.jpg"
         else
           match (fun (_ : String) (_ : ℕ) => (none : Option String)) "images/1_a.jpg" 3600 with
           | some su => su
           | none => publicUrl "https://proj.supabase.co" "imagens" "images/1_a.jpg") := by
  have h := images_url_resolution (fun _ _ => none) "https://proj.supabase.co"
    [{ id := 1, user_id := "u", url := "images/1_a.jpg"
       latitude := .null, longitude := .null, analysis := .null
       created_at := "2025-01-01T00:00:00.000Z" }]
  exact ⟨h.1, h.2
    { id := 1, user_id := "u", url := "images/1_a.jpg"
      latitude := .null, longitude := .null, analysis := .null
      created_at := "2025-01-01T00:00:00.000Z" }
    (List.mem_singleton.mpr rfl)⟩

/-! ## Claim C9: falsy record fields are reported as null -/

/-- C9: the GET /images per-record view applies JavaScript truthiness
defaulting, so a stored latitude or longitude equal to 0 and a stored
empty-string analysis are all reported as null in the response. -/
theorem images_falsy_fields_null (signed : String → ℕ → Option String)
    (baseUrl : String) (img : ImageRecord) :
    (img.latitude = .num 0 → (imageView signed baseUrl img).latitude = .null) ∧
    (img.longitude = .num 0 → (imageView signed baseUrl img).longitude = .null) ∧
    (img.analysis = .str "" → (imageView signed baseUrl img).analysis = .null) := by
  refine ⟨fun h => ?_, fun h => ?_, fun h => ?_⟩ <;>
    simp [imageView, orNull, h, JsVal.truthy, String.isEmpty_iff]

/-- Witness for `images_falsy_fields_null`: a record at the equator with
an empty analysis string is reported with null latitude, longitude and
analysis. -/
theorem images_falsy_fields_null_witness :
    (imageView (fun _ _ => none) "https://proj.supabase.co"
      { id := 2, user_id := "u", url := "images/2_b.jpg"
        latitude := .num 0, longitude := .num 0, analysis := .str ""
        created_at := "2025-01-01T00:00:00.000Z" }).latitude = .null ∧
    (imageView (fun _ _ => none) "https://proj.supabase.co"
      { id := 2, user_id := "u", url := "images/2_b.jpg"
        latitude := .num 0, longitude := .num 0, analysis := .str ""
        created_at := "2025-01-01T00:00:00.000Z" }).longitude = .null ∧
    (imageView (fun _ _ => none) "https://proj.supabase.co"
      { id := 2, user_id := "u", url := "images/2_b.jpg"
        latitude := .num 0, longitude := .num 0, analysis := .str ""
        created_at := "2025-01-01T00:00:00.000Z" }).analysis = .null := by
  obtain ⟨h1, h2, h3⟩ := images_falsy_fields_null (fun _ _ => none) "https://proj.supabase.co"
    { id := 2, user_id := "u", url := "images/2_b.jpg"
      latitude := .num 0, longitude := .num 0, analysis := .str ""
      created_at := "2025-01-01T00:00:00.000Z" }
  exact ⟨h1 rfl, h2 rfl, h3 rfl⟩

/-! ## Claim C6: profile upsert invariant -/

/-- Updating the profile reference of the rows matching one identifier
changes no row's identifier, so every identifier's row count is
preserved. -/
theorem countFid_updateUsers (users : List UserRecord) (u url v : String) :
    countFid (updateUsers users u url) v = countFid users v := by
  induction users with
  | nil => rfl
  | cons r rs ih =>
    simp only [countFid, updateUsers, List.map_cons, List.filter_cons] at ih ⊢
    have hfid : (if r.firebase_id == u then
        ({ firebase_id := r.firebase_id, profile_image_url := some url
           created_at := r.created_at } : UserRecord) else r).firebase_id
        = r.firebase_id := by
      by_cases h2 : r.firebase_id = u <;> simp [h2]
    rw [hfid]
    by_cases h : r.firebase_id = v <;> simp [h] <;> simpa using ih

/-- Row count of an identifier after appending one row. -/
theorem countFid_append_single (users : List UserRecord) (r : UserRecord) (v : String) :
    countFid (users ++ [r]) v
      = countFid users v + (if r.firebase_id = v then 1 else 0) := by
  by_cases h : r.firebase_id = v <;> simp [countFid, List.filter_append, h]

/-- A failed lookup means no row carries the identifier. -/
theorem countFid_eq_zero_of_not_found (users : List UserRecord) (u : String)
    (h : users.find? (fun r => r.firebase_id == u) = none) :
    countFid users u = 0 := by
  rw [List.find?_eq_none] at h
  simp only [countFid, List.length_eq_zero]
  exact List.filter_eq_nil_iff.2 h

/-- C6: POST /upload-profile with a file and a truthy `user_id` issues its
storage upload with the deterministic key `profile_{user_id}.jpg` and
overwrite-on-conflict (`upsert: true`); it preserves the at-most-one-row
per-identifier invariant; when the identifier was found it only updates
(the table size is unchanged), it inserts a new row only when the lookup
found nothing (table grows by one); and on success the profiles bucket
maps that key to the newly uploaded bytes — so a second upload for the
same `user_id` overwrites the first object. -/
theorem upload_profile_upsert (env : ProfileEnv) (f : UploadedFile)
    (uidOpt : Option String) (hu : optTruthy uidOpt = true)
    (hinv : ∀ v, countFid env.users v ≤ 1) :
    (uploadProfileHandler env (some f) uidOpt).call
      = some { bucket := "profiles"
               key := "profile_" ++ uidOpt.getD "" ++ ".jpg"
               upsert := true, cacheControl := "3600", contentType := f.mimetype } ∧
    (∀ v, countFid (uploadProfileHandler env (some f) uidOpt).users v ≤ 1) ∧
    ((env.users.find? (fun r => r.firebase_id == uidOpt.getD "")).isSome = true →
      (uploadProfileHandler env (some f) uidOpt).users.length = env.users.length) ∧
    (env.users.find? (fun r => r.firebase_id == uidOpt.getD "") = none →
      ∀ url, (uploadProfileHandler env (some f) uidOpt).resp = .ok url →
        (uploadProfileHandler env (some f) uidOpt).users.length
          = env.users.length + 1) ∧
    (∀ url, (uploadProfileHandler env (some f) uidOpt).resp = .ok url →
      bucketGet (uploadProfileHandler env (some f) uidOpt).bucket
        ("profile_" ++ uidOpt.getD "" ++ ".jpg") = some env.fileContent) := by
  have hsu : storageUpload env.profilesBucket
      { bucket := "profiles", key := "profile_" ++ uidOpt.getD "" ++ ".jpg"
        upsert := true, cacheControl := "3600", contentType := f.mimetype }
      env.fileContent
      = .ok (("profile_" ++ uidOpt.getD "" ++ ".jpg", env.fileContent)
          :: env.profilesBucket.filter
               (fun p => p.1 != "profile_" ++ uidOpt.getD "" ++ ".jpg")) := rfl
  simp only [uploadProfileHandler, hu, Bool.not_true, Bool.false_eq_true, if_false, hsu]
  cases hupl : env.uploadFail
  case some e => simp [hinv]
  case none =>
  cases hff : env.findFail
  case some e => simp [hinv]
  case none =>
  cases hl : env.users.find? (fun r => r.firebase_id == uidOpt.getD "")
  case some r0 =>
    cases hw : env.writeFail
    case some e => simp [hinv, hl]
    case none =>
      refine ⟨rfl, ?_, ?_, ?_, ?_⟩
      · intro v
        simpa [countFid_updateUsers] using hinv v
      · intro _
        simp [updateUsers]
      · intro hnone
        cases hnone
      · intro url _
        simp [bucketGet, List.find?]
  case none =>
    cases hw : env.writeFail
    case some e => simp [hinv, hl]
    case none =>
      refine ⟨rfl, ?_, ?_, ?_, ?_⟩
      · intro v
        rw [countFid_append_single]
        by_cases hv2 : uidOpt.getD "" = v
        · subst hv2
          rw [countFid_eq_zero_of_not_found env.users _ hl]
          simp
        · have hno : ¬ (({ firebase_id := uidOpt.getD ""
                           profile_image_url := some (publicUrl env.baseUrl "profiles"
                             ("profile_" ++ uidOpt.getD "" ++ ".jpg"))
                           created_at := env.nowIso } : UserRecord).firebase_id = v) := hv2
          rw [if_neg hno, Nat.add_zero]
          exact hinv v
      · intro hsome
        simp at hsome
      · intro _ url _
        simp
      · intro url _
        simp [bucketGet, List.find?]

/-- Witness for `upload_profile_upsert`: a first profile upload for a
fresh identifier inserts exactly one row and stores the bytes under the
deterministic key. -/
theorem upload_profile_upsert_witness :
    (uploadProfileHandler
      { baseUrl := "https://proj.supabase.co", nowIso := "2025-01-04T00:00:00.000Z"
        users := [], profilesBucket := [("profile_u9.jpg", 1)], fileContent := 5
        uploadFail := none, findFail := none, writeFail := none }
      (some { path := "uploads/w4", originalname := none, mimetype := "image/jpeg" })
      (some "u9")).call
      = some { bucket := "profiles", key := "profile_" ++ "u9" ++ ".jpg"
               upsert := true, cacheControl := "3600", contentType := "image/jpeg" } ∧
    countFid (uploadProfileHandler
      { baseUrl := "https://proj.supabase.co", nowIso := "2025-01-04T00:00:00.000Z"
        users := [], profilesBucket := [("profile_u9.jpg", 1)], fileContent := 5
        uploadFail := none, findFail := none, writeFail := none }
      (some { path := "uploads/w4", originalname := none, mimetype := "image/jpeg" })
      (some "u9")).users "u9" ≤ 1 ∧
    (uploadProfileHandler
      { baseUrl := "https://proj.supabase.co", nowIso := "2025-01-04T00:00:00.000Z"
        users := [], profilesBucket := [("profile_u9.jpg", 1)], fileContent := 5
        uploadFail := none, findFail := none, writeFail := none }
      (some { path := "uploads/w4", originalname := none, mimetype := "image/jpeg" })
      (some "u9")).users.length = 1 ∧
    bucketGet (uploadProfileHandler
      { baseUrl := "https://proj.supabase.co", nowIso := "2025-01-04T00:00:00.000Z"
        users := [], profilesBucket := [("profile_u9.jpg", 1)], fileContent := 5
        uploadFail := none, findFail := none, writeFail := none }
      (some { path := "uploads/w4", originalname := none, mimetype := "image/jpeg" })
      (some "u9")).bucket ("profile_" ++ "u9" ++ ".jpg") = some 5 := by
  obtain ⟨h1, h2, _, h4, h5⟩ := upload_profile_upsert
    { baseUrl := "https://proj.supabase.co", nowIso := "2025-01-04T00:00:00.000Z"
      users := [], profilesBucket := [("profile_u9.jpg", 1)], fileContent := 5
      uploadFail := none, findFail := none, writeFail := none }
    { path := "uploads/w4", originalname := none, mimetype := "image/jpeg" }
    (some "u9") rfl (fun v => by simp [countFid])
  exact ⟨h1, h2 "u9", h4 rfl _ rfl, h5 _ rfl⟩

/-! ## Claim C7: GET /profile-image/:user_id cases -/

/-- C7: the profile-image fetch answers 404 `Usuário não encontrado` on
the not-found lookup error, 404 with the distinct message `Imagem de
perfil não encontrada` for a row without a usable reference, the
reference verbatim when it starts with `http`, and the public URL from
the `profiles` bucket for any other non-empty reference. -/
theorem profile_image_fetch_cases (baseUrl : String) (user : UserRecord) :
    getProfileHandler baseUrl .notFoundErr = .err 404 "Usuário não encontrado" ∧
    (optTruthy user.profile_image_url = false →
      getProfileHandler baseUrl (.ok user) = .err 404 "Imagem de perfil não encontrada") ∧
    ("Usuário não encontrado" ≠ "Imagem de perfil não encontrada") ∧
    (∀ s, user.profile_image_url = some s → strStartsWith s "http" = true →
      getProfileHandler baseUrl (.ok user) = .ok s) ∧
    (∀ s, user.profile_image_url = some s → strStartsWith s "http" = false →
      s.isEmpty = false →
      getProfileHandler baseUrl (.ok user) = .ok (publicUrl baseUrl "profiles" s)) := by
  refine ⟨rfl, fun hfalsy => ?_, by decide, fun s hs hh => ?_, fun s hs hh hne => ?_⟩
  · simp [getProfileHandler, hfalsy]
  · have hne : s.isEmpty = false := by
      rw [Bool.eq_false_iff]
      intro he
      rw [(String.isEmpty_iff s).1 he] at hh
      exact absurd hh (by decide)
    simp [getProfileHandler, hs, optTruthy, hne, hh]
  · simp [getProfileHandler, hs, optTruthy, hne, hh]

/-- Witness for `profile_image_fetch_cases`, exercising all four
behaviours on concrete rows: unknown user, known user without reference,
full-URL reference returned as-is, and bare-key reference resolved to the
public URL. -/
theorem profile_image_fetch_cases_witness :
    getProfileHandler "https://proj.supabase.co" .notFoundErr
      = .err 404 "Usuário não encontrado" ∧
    getProfileHandler "https://proj.supabase.co"
      (.ok { firebase_id := "u1", profile_image_url := none
             created_at := "2025-01-01T00:00:00.000Z" })
      = .err 404 "Imagem de perfil não encontrada" ∧
    getProfileHandler "https://proj.supabase.co"
      (.ok { firebase_id := "u2", profile_image_url := some "https://cdn.example/x.jpg"
             created_at := "2025-01-01T00:00:00.000Z" })
      = .ok "https://cdn.example/x.jpg" ∧
    getProfileHandler "https://proj.supabase.co"
      (.ok { firebase_id := "u3", profile_image_url := some "profile_u3.jpg"
             created_at := "2025-01-01T00:00:00.000Z" })
      = .ok (publicUrl "https://proj.supabase.co" "profiles" "profile_u3.jpg") := by
  obtain ⟨ha, hb, -, -, -⟩ := profile_image_fetch_cases "https://proj.supabase.co"
    { firebase_id := "u1", profile_image_url := none
      created_at := "2025-01-01T00:00:00.000Z" }
  obtain ⟨-, -, -, hc, -⟩ := profile_image_fetch_cases "https://proj.supabase.co"
    { firebase_id := "u2", profile_image_url := some "https://cdn.example/x.jpg"
      created_at := "2025-01-01T00:00:00.000Z" }
  obtain ⟨-, -, -, -, hd⟩ := profile_image_fetch_cases "https://proj.supabase.co"
    { firebase_id := "u3", profile_image_url := some "profile_u3.jpg"
      created_at := "2025-01-01T00:00:00.000Z" }
  exact ⟨ha, hb rfl, hc _ rfl (by decide), hd _ rfl (by decide) (by decide)⟩

/-! ## Claim C8: upload storage key and stored reference -/

/-- The resolved public URL is strictly longer than the key it resolves,
so the two strings never coincide. -/
theorem publicUrl_ne_key (b bucket k : String) : publicUrl b bucket k ≠ k := by
  intro h
  have hl := congrArg String.length h
  rw [publicUrl, String.length_append, String.length_append, String.length_append,
    String.length_append] at hl
  have h26 : ("/storage/v1/object/public/" : String).length = 26 := rfl
  have h1 : ("/" : String).length = 1 := rfl
  rw [h26, h1] at hl
  omega

/-- C8: a successful POST /upload issues its storage upload with key
`images/{Date.now()}_{originalname}` (with `image.jpg` substituted for an
absent original filename) and without overwrite-on-conflict
(`upsert: false`); the inserted record stores that bare key as its
reference — which is never equal to the resolved public URL — while the
response's `imageUrl` is that resolved public URL. -/
theorem upload_key_and_reference (env : UploadEnv) (req : UploadReq) (f : UploadedFile)
    (hf : req.file = some f) (hu : optTruthy req.user_id = true)
    (hupl : env.uploadFail = none) (hins : env.insertFail = none)
    (hkey : bucketGet env.imagesBucket
      ("images/" ++ (toString env.now ++ "_" ++ orDefault f.originalname "image.jpg"))
        = none) :
    (uploadHandler env req).call
      = some { bucket := "imagens"
               key := "images/" ++ (toString env.now ++ "_" ++ orDefault f.originalname "image.jpg")
               upsert := false, cacheControl := "3600", contentType := f.mimetype } ∧
    (f.originalname = none →
      (uploadHandler env req).call
        = some { bucket := "imagens"
                 key := "images/" ++ (toString env.now ++ "_" ++ "image.jpg")
                 upsert := false, cacheControl := "3600", contentType := f.mimetype }) ∧
    (∃ rec : ImageRecord,
      findImage (uploadHandler env req).db rec.id = some rec ∧
      rec.url = "images/" ++ (toString env.now ++ "_" ++ orDefault f.originalname "image.jpg") ∧
      rec.url ≠ publicUrl env.baseUrl "imagens"
        ("images/" ++ (toString env.now ++ "_" ++ orDefault f.originalname "image.jpg")) ∧
      (uploadHandler env req).resp
        = .ok rec.id
            (publicUrl env.baseUrl "imagens"
              ("images/" ++ (toString env.now ++ "_" ++ orDefault f.originalname "image.jpg")))
            rec.latitude rec.longitude rec.analysis) := by
  have hsu : storageUpload env.imagesBucket
      { bucket := "imagens"
        key := "images/" ++ (toString env.now ++ "_" ++ orDefault f.originalname "image.jpg")
        upsert := false, cacheControl := "3600", contentType := f.mimetype }
      env.fileContent
      = .ok (("images/" ++ (toString env.now ++ "_" ++ orDefault f.originalname "image.jpg"),
              env.fileContent) :: env.imagesBucket) := by
    simp [storageUpload, hkey]
  refine ⟨?_, fun hn => ?_, ?_⟩
  · simp only [uploadHandler, hf, hu, hupl, hsu, hins]
    simp
  · simp only [uploadHandler, hf, hu, hupl, hsu, hins]
    simp [hn, orDefault]
  · refine ⟨{ id := freshId env.imagesDb
              user_id := req.user_id.getD ""
              url := "images/" ++ (toString env.now ++ "_" ++ orDefault f.originalname "image.jpg")
              latitude := jsonNorm (coordVal req.latitude)
              longitude := jsonNorm (coordVal req.longitude)
              analysis := analysisVal req.analysis
              created_at := env.nowIso }, ?_, rfl, ?_, ?_⟩
    · simp only [uploadHandler, hf, hu, hupl, hsu, hins]
      simp [findImage]
    · exact fun h => publicUrl_ne_key _ _ _ h.symm
    · simp only [uploadHandler, hf, hu, hupl, hsu, hins]
      simp

/-- Witness for `upload_key_and_reference`: a concrete upload without an
original filename gets key `images/{now}_image.jpg`. -/
theorem upload_key_and_reference_witness :
    (uploadHandler
      { now := 99, nowIso := "2025-01-05T00:00:00.000Z"
        baseUrl := "https://proj.supabase.co", imagesDb := [], imagesBucket := []
        fileContent := 2, uploadFail := none, insertFail := none }
      { file := some { path := "uploads/w5", originalname := none
                       mimetype := "image/jpeg" }
        user_id := some "user-2", latitude := none, longitude := none
        analysis := none }).call
      = some { bucket := "imagens"
               key := "images/" ++ (toString (99 : ℕ) ++ "_" ++ "image.jpg")
               upsert := false, cacheControl := "3600", contentType := "image/jpeg" } ∧
    (∃ rec : ImageRecord,
      findImage (uploadHandler
        { now := 99, nowIso := "2025-01-05T00:00:00.000Z"
          baseUrl := "https://proj.supabase.co", imagesDb := [], imagesBucket := []
          fileContent := 2, uploadFail := none, insertFail := none }
        { file := some { path := "uploads/w5", originalname := none
                         mimetype := "image/jpeg" }
          user_id := some "user-2", latitude := none, longitude := none
          analysis := none }).db rec.id = some rec ∧
      rec.url = "images/" ++ (toString (99 : ℕ) ++ "_" ++ orDefault none "image.jpg") ∧
      rec.url ≠ publicUrl "https://proj.supabase.co" "imagens"
        ("images/" ++ (toString (99 : ℕ) ++ "_" ++ orDefault none "image.jpg")) ∧
      (uploadHandler
        { now := 99, nowIso := "2025-01-05T00:00:00.000Z"
          baseUrl := "https://proj.supabase.co", imagesDb := [], imagesBucket := []
          fileContent := 2, uploadFail := none, insertFail := none }
        { file := some { path := "uploads/w5", originalname := none
                         mimetype := "image/jpeg" }
          user_id := some "user-2", latitude := none, longitude := none
          analysis := none }).resp
        = .ok rec.id
            (publicUrl "https://proj.supabase.co" "imagens"
              ("images/" ++ (toString (99 : ℕ) ++ "_" ++ orDefault none "image.jpg")))
            rec.latitude rec.longitude rec.analysis) := by
  obtain ⟨-, h2, h3⟩ := upload_key_and_reference
    { now := 99, nowIso := "2025-01-05T00:00:00.000Z"
      baseUrl := "https://proj.supabase.co", imagesDb := [], imagesBucket := []
      fileContent := 2, uploadFail := none, insertFail := none }
    { file := some { path := "uploads/w5", originalname := none
                     mimetype := "image/jpeg" }
      user_id := some "user-2", latitude := none, longitude := none
      analysis := none }
    { path := "uploads/w5", originalname := none, mimetype := "image/jpeg" }
    rfl rfl rfl rfl rfl
  exact ⟨h2 rfl, h3⟩

/-! ## Claim C10: profile reference round-trip -/

/-- A profile lookup result whose reference carries the `http` prefix is
returned as-is. -/
theorem getProfileHandler_ok_of_http (baseUrl : String) (user : UserRecord)
    (url : String) (hp : user.profile_image_url = some url)
    (hh : strStartsWith url "http" = true) :
    getProfileHandler baseUrl (.ok user) = .ok url := by
  have hne : url.isEmpty = false := by
    rw [Bool.eq_false_iff]
    intro he
    rw [(String.isEmpty_iff url).1 he] at hh
    exact absurd hh (by decide)
  simp [getProfileHandler, hp, optTruthy, hne, hh]

/-- The lookup after `updateUsers` returns the first matching row with
its reference rewritten. -/
theorem find?_updateUsers (users : List UserRecord) (u url : String) :
    (updateUsers users u url).find? (fun r => r.firebase_id == u)
      = (users.find? (fun r => r.firebase_id == u)).map
          (fun r => { firebase_id := r.firebase_id, profile_image_url := some url
                      created_at := r.created_at }) := by
  rw [updateUsers, List.find?_map]
  have hpred : ((fun r : UserRecord => r.firebase_id == u) ∘ (fun r =>
      if r.firebase_id == u then
        ({ firebase_id := r.firebase_id, profile_image_url := some url
           created_at := r.created_at } : UserRecord) else r))
      = (fun r : UserRecord => r.firebase_id == u) := by
    funext r
    by_cases h : r.firebase_id = u <;> simp [h]
  rw [hpred]
  cases hfind : users.find? (fun r => r.firebase_id == u) with
  | none => rfl
  | some a =>
    have ha := @List.find?_some UserRecord (fun r => r.firebase_id == u) a users hfind
    simp only [] at ha
    simp [Option.map, ha]

/-- Every row matching the identifier after `updateUsers` carries the new
reference. -/
theorem mem_updateUsers_ref (users : List UserRecord) (u url : String) (r : UserRecord)
    (hr : r ∈ updateUsers users u url) (hid : r.firebase_id = u) :
    r.profile_image_url = some url := by
  obtain ⟨r0, hr0, heq⟩ := List.mem_map.1 hr
  by_cases h : r0.firebase_id = u
  · rw [← heq]
    simp [h]
  · rw [← heq] at hid
    simp [h] at hid

/-- C10: with a file, a truthy `user_id` and all backend calls
succeeding, POST /upload-profile persists the resolved public URL — never
the bare storage key — as the reference of every row for that identifier,
and GET /profile-image on the resulting table takes the as-is branch and
returns exactly the URL computed at upload time (given that the
configured base URL gives the resolved URL its `http` prefix). The
at-most-one-row-per-identifier hypothesis keeps both `find?`-modelled
`.single()` lookups inside the region where they are faithful to the
client (with several matching rows `.single()` reports the PGRST116
error instead of a row). -/
theorem profile_upload_fetch_roundtrip (env : ProfileEnv) (f : UploadedFile)
    (uidOpt : Option String) (hu : optTruthy uidOpt = true)
    (_hinv : ∀ v, countFid env.users v ≤ 1)
    (hupl : env.uploadFail = none) (hff : env.findFail = none)
    (hw : env.writeFail = none)
    (hhttp : strStartsWith
      (publicUrl env.baseUrl "profiles" ("profile_" ++ uidOpt.getD "" ++ ".jpg"))
      "http" = true) :
    (∀ r ∈ (uploadProfileHandler env (some f) uidOpt).users,
      r.firebase_id = uidOpt.getD "" →
        r.profile_image_url
          = some (publicUrl env.baseUrl "profiles"
              ("profile_" ++ uidOpt.getD "" ++ ".jpg")) ∧
        r.profile_image_url ≠ some ("profile_" ++ uidOpt.getD "" ++ ".jpg")) ∧
    getProfileHandler env.baseUrl
      (lookupUser (uploadProfileHandler env (some f) uidOpt).users (uidOpt.getD ""))
      = .ok (publicUrl env.baseUrl "profiles"
          ("profile_" ++ uidOpt.getD "" ++ ".jpg")) := by
  have hsu : storageUpload env.profilesBucket
      { bucket := "profiles", key := "profile_" ++ uidOpt.getD "" ++ ".jpg"
        upsert := true, cacheControl := "3600", contentType := f.mimetype }
      env.fileContent
      = .ok (("profile_" ++ uidOpt.getD "" ++ ".jpg", env.fileContent)
          :: env.profilesBucket.filter
               (fun p => p.1 != "profile_" ++ uidOpt.getD "" ++ ".jpg")) := rfl
  simp only [uploadProfileHandler, hu, Bool.not_true, Bool.false_eq_true, if_false,
    hsu, hupl, hff, hw]
  cases hl : env.users.find? (fun r => r.firebase_id == uidOpt.getD "")
  case none =>
    constructor
    · intro r hr hid
      rcases List.mem_append.1 hr with hmem | hmem
      · exact absurd (by simp [hid]) (List.find?_eq_none.1 hl r hmem)
      · have hr' : r = { firebase_id := uidOpt.getD ""
                         profile_image_url := some (publicUrl env.baseUrl "profiles"
                           ("profile_" ++ uidOpt.getD "" ++ ".jpg"))
                         created_at := env.nowIso } := by simpa using hmem
        subst hr'
        exact ⟨rfl, fun hbad =>
          publicUrl_ne_key _ _ _ (Option.some.inj hbad)⟩
    · have hfind : (env.users ++
            [({ firebase_id := uidOpt.getD "",
                profile_image_url := some (publicUrl env.baseUrl "profiles"
                  ("profile_" ++ uidOpt.getD "" ++ ".jpg")),
                created_at := env.nowIso } : UserRecord)]).find?
              (fun r => r.firebase_id == uidOpt.getD "")
          = some { firebase_id := uidOpt.getD "",
                   profile_image_url := some (publicUrl env.baseUrl "profiles"
                     ("profile_" ++ uidOpt.getD "" ++ ".jpg")),
                   created_at := env.nowIso } := by
        rw [List.find?_append, hl]
        simp [List.find?_cons]
      simp only [lookupUser, hfind]
      exact getProfileHandler_ok_of_http _ _ _ rfl hhttp
  case some r0 =>
    constructor
    · intro r hr hid
      have href := mem_updateUsers_ref env.users (uidOpt.getD "")
        (publicUrl env.baseUrl "profiles" ("profile_" ++ uidOpt.getD "" ++ ".jpg"))
        r hr hid
      exact ⟨href, fun hbad => by
        rw [href] at hbad
        exact publicUrl_ne_key _ _ _ (Option.some.inj hbad)⟩
    · have hfind := find?_updateUsers env.users (uidOpt.getD "")
        (publicUrl env.baseUrl "profiles" ("profile_" ++ uidOpt.getD "" ++ ".jpg"))
      rw [hl] at hfind
      simp only [Option.map] at hfind
      simp only [lookupUser, hfind]
      exact getProfileHandler_ok_of_http _ _ _ rfl hhttp

/-- Witness for `profile_upload_fetch_roundtrip`: after a concrete first
upload for `u9`, the stored reference is the public URL and the fetch
returns it verbatim. -/
theorem profile_upload_fetch_roundtrip_witness :
    getProfileHandler "https://proj.supabase.co"
      (lookupUser (uploadProfileHandler
        { baseUrl := "https://proj.supabase.co", nowIso := "2025-01-06T00:00:00.000Z"
          users := [], profilesBucket := [], fileContent := 4
          uploadFail := none, findFail := none, writeFail := none }
        (some { path := "uploads/w6", originalname := none, mimetype := "image/jpeg" })
        (some "u9")).users "u9")
      = .ok (publicUrl "https://proj.supabase.co" "profiles"
          ("profile_" ++ "u9" ++ ".jpg")) :=
  (profile_upload_fetch_roundtrip
    { baseUrl := "https://proj.supabase.co", nowIso := "2025-01-06T00:00:00.000Z"
      users := [], profilesBucket := [], fileContent := 4
      uploadFail := none, findFail := none, writeFail := none }
    { path := "uploads/w6", originalname := none, mimetype := "image/jpeg" }
    (some "u9") rfl (fun v => by simp [countFid]) rfl rfl rfl (by decide)).2

end SupabaseJS
